import Mathlib

/-!
Shallow embedding of the ETL pipeline in `project/pipeline.py` (NYC motor
vehicle collisions / population / street-reference datasets), together with
proofs settling the frozen claims about it.

Modelling conventions
* A pandas DataFrame becomes a Lean list of rows; a cell that may be NaN
  becomes an `Option String` (raw data) or a coerced value.
* `pd.to_datetime(errors = coerce)` is modelled by `parseDate`, an ISO
  `YYYY-MM-DD` parser returning `Option`; an unparseable or missing value is
  `none`, mirroring NaT.  The pipeline only ever tests parse success /
  failure, so the exact calendar grammar is irrelevant to every claim.
* `pd.to_numeric(errors = coerce).fillna(0).astype(int)` is modelled by
  `to_numeric_int`: optional-sign decimal literals (with an optional
  fractional part, truncated toward zero exactly as `astype(int)` does);
  anything unparseable or missing coerces to 0.
* A Python dict is an association list; `dictGet` returns the binding of the
  latest insertion, matching dict construction where later keys overwrite
  earlier ones.
* Python `str.strip()` / `str.upper()` / `str.title()` become character-list
  functions below (ASCII case folding, which is all the borough and street
  data uses).  String primitives are re-implemented structurally so that
  every definition evaluates inside the kernel.
-/

/-- Python `str.title()` on a character stream: an alphabetic character is
upper-cased when the previous character was not alphabetic and lower-cased
otherwise; non-alphabetic characters pass through and reset the word
boundary. -/
def titleCaseGo : Bool → List Char → List Char
  | _, [] => []
  | prevAlpha, c :: cs =>
    let c2 := if c.isAlpha then (if prevAlpha then c.toLower else c.toUpper) else c
    c2 :: titleCaseGo c.isAlpha cs

/-- Python `str.title()`. -/
def titleCase (s : String) : String := String.mk (titleCaseGo false s.data)

/-- Python `str.strip()`: drop whitespace from both ends. -/
def trimChars (l : List Char) : List Char :=
  ((l.dropWhile Char.isWhitespace).reverse.dropWhile Char.isWhitespace).reverse

/-- Python `str.strip().upper()`, the street-name standardization used both
on the reference mapping keys and on the copied street columns. -/
def strNormalize (s : String) : String :=
  String.mk ((trimChars s.data).map Char.toUpper)

/-- Split a character list at every occurrence of the separator, Python
`str.split(sep)` with a one-character separator; `acc` holds the current
segment reversed. -/
def splitCharGo (sep : Char) (acc : List Char) : List Char → List (List Char)
  | [] => [acc.reverse]
  | c :: cs => if c = sep then acc.reverse :: splitCharGo sep [] cs else splitCharGo sep (c :: acc) cs

/-- Decimal digits to a natural number; `none` when the list is empty or
contains a non-digit. -/
def natFromDigits (l : List Char) : Option Nat :=
  if l ≠ [] ∧ l.all Char.isDigit then some (l.foldl (fun acc c => acc * 10 + (c.toNat - 48)) 0)
  else none

/-- Unsigned numeric literal with an optional fractional part (`12`,
`12.5`); fractional digits are discarded, matching `astype(int)` truncation
toward zero. -/
def parseNatPart (l : List Char) : Option Nat :=
  match splitCharGo (Char.ofNat 46) [] l with
  | [a] => natFromDigits a
  | [a, b] => if b ≠ [] ∧ b.all Char.isDigit then natFromDigits a else none
  | _ => none

/-- Embeds `pd.to_numeric(errors = coerce)` on one cell: optional leading
minus sign, decimal digits, optional fractional part.  `none` when the cell
does not parse. -/
def parseNumeric (s : String) : Option Int :=
  match s.data with
  | [] => none
  | c :: cs =>
    if c = Char.ofNat 45 then (parseNatPart cs).map (fun n => -(n : Int))
    else (parseNatPart s.data).map (fun n => (n : Int))

/-- `pd.to_numeric(col, errors = coerce).fillna(0).astype(int)` on one cell:
missing (NaN) and unparseable values coerce to 0. -/
def to_numeric_int (v : Option String) : Int :=
  match v with
  | none => 0
  | some s => match parseNumeric s with
    | some n => n
    | none => 0

/-- Embeds `pd.to_datetime(errors = coerce)` on one cell as an ISO
`YYYY-MM-DD` parser; `none` mirrors NaT.  Only parse success / failure is
ever consumed downstream. -/
def parseDate (s : String) : Option (Nat × Nat × Nat) :=
  match splitCharGo (Char.ofNat 45) [] s.data with
  | [y, m, d] =>
    match natFromDigits y, natFromDigits m, natFromDigits d with
    | some yn, some mn, some dn =>
      if 1 ≤ mn ∧ mn ≤ 12 ∧ 1 ≤ dn ∧ dn ≤ 31 then some (yn, mn, dn) else none
    | _, _, _ => none
  | _ => none

/-- Python dict lookup over an association list built by successive
insertion: the LAST binding of a key wins, as in `dict(zip(ks, vs))` and
dict comprehensions. -/
def dictGet (m : List (String × String)) (k : String) : Option String :=
  (m.reverse.find? (fun kv => kv.1 == k)).map (fun kv => kv.2)

/-- One raw row of the collisions CSV, restricted to the columns the
pipeline reads.  `killed` / `injured` hold the cells of the columns whose
names contain the substrings `killed` / `injured`; `other` holds the cells
of the remaining columns (latitude, longitude, location, collision id, the
extra per-vehicle columns), which never influence cleaning but do take part
in exact-duplicate comparison. -/
structure RawCollisionRow where
  borough : Option String
  on_street_name : Option String
  off_street_name : Option String
  cross_street_name : Option String
  crash_date : Option String
  crash_time : Option String
  killed : List (Option String)
  injured : List (Option String)
  vehicle_type_code1 : Option String
  other : List (Option String)
deriving DecidableEq

/-- One cleaned collisions row, after `clean_collisions_data`: date, time
and the `other` columns are dropped, `vehicle_type_code1` is renamed
`vehicle_type`, count columns are coerced and totalled. -/
structure CollisionRow where
  borough : String
  on_street_name : Option String
  off_street_name : Option String
  cross_street_name : Option String
  killed : List Int
  injured : List Int
  total_fatalities : Int
  total_injuries : Int
  vehicle_type : Option String
deriving DecidableEq

/-- `DataFrame.drop_duplicates()`: keep the first occurrence of each exact
duplicate row, preserving order.  `seen` accumulates rows already emitted. -/
def dedupFirst (seen : List RawCollisionRow) : List RawCollisionRow → List RawCollisionRow
  | [] => []
  | x :: xs => if x ∈ seen then dedupFirst seen xs else x :: dedupFirst (x :: seen) xs

/-- `data.drop_duplicates()` as in the first cleaning step. -/
def drop_duplicates (l : List RawCollisionRow) : List RawCollisionRow := dedupFirst [] l

/-- True when the crash date cell parses (`pd.to_datetime` does not yield
NaT); `dropna` on the date column keeps exactly these rows. -/
def crashDateOk (r : RawCollisionRow) : Bool := (r.crash_date.bind parseDate).isSome

/-- The per-row part of `clean_collisions_data`: fill missing borough with
Unknown and title-case it, coerce the killed / injured columns with
`to_numeric_int`, total them, rename `vehicle_type_code1`, drop
date / time / other columns. -/
def cleanRowOf (r : RawCollisionRow) : CollisionRow :=
  { borough := titleCase (r.borough.getD ("Unknown"))
    on_street_name := r.on_street_name
    off_street_name := r.off_street_name
    cross_street_name := r.cross_street_name
    killed := r.killed.map to_numeric_int
    injured := r.injured.map to_numeric_int
    total_fatalities := (r.killed.map to_numeric_int).sum
    total_injuries := (r.injured.map to_numeric_int).sum
    vehicle_type := r.vehicle_type_code1 }

/-- `clean_collisions_data`: drop exact duplicates, fill and title-case the
borough, parse the date and drop rows whose date fails to parse
(unparseable times do not drop a row: the `dropna` subset is the date
column only), drop the unused columns, coerce the count columns and compute
`total_fatalities` / `total_injuries`. -/
def clean_collisions_data (rows : List RawCollisionRow) : List CollisionRow :=
  let deduped := drop_duplicates rows
  let dated := deduped.filter crashDateOk
  dated.map cleanRowOf

/-- The `borocode_to_borough` dict inside `integrate_street_names`, with
`.get(code, Unknown)` built in: codes 1-5 name the five boroughs, anything
else falls back to Unknown. -/
def borocode_to_borough (c : String) : String :=
  if c = ("1") then ("Manhattan")
  else if c = ("2") then ("Bronx")
  else if c = ("3") then ("Brooklyn")
  else if c = ("4") then ("Queens")
  else if c = ("5") then ("Staten Island")
  else ("Unknown")

/-- The dict comprehension standardizing the street mapping keys:
`{k.strip().upper(): v for k, v in street_mapping.items()}`. -/
def street_mapping_std (m : List (String × String)) : List (String × String) :=
  m.map (fun kv => (strNormalize kv.1, kv.2))

/-- The street-column standardization applied to the copied Unknown-borough
rows: strip and upper-case the three street-name fields (a missing street
stays missing, as NaN does under pandas `.str` accessors). -/
def normalizeStreets (r : CollisionRow) : CollisionRow :=
  { r with
    on_street_name := r.on_street_name.map strNormalize
    off_street_name := r.off_street_name.map strNormalize
    cross_street_name := r.cross_street_name.map strNormalize }

/-- The `find_borough` helper: walk `on_street_name`, `off_street_name`,
`cross_street_name` in that order; the FIRST street present in the mapping
decides (its boro code is translated, an unrecognized code giving Unknown
without falling through to later streets); if no street is in the mapping,
return Unknown.  A missing street (NaN) is never in the mapping. -/
def find_borough (m : List (String × String)) (r : CollisionRow) : String :=
  match r.on_street_name.bind (dictGet m) with
  | some code => borocode_to_borough code
  | none =>
    match r.off_street_name.bind (dictGet m) with
    | some code => borocode_to_borough code
    | none =>
      match r.cross_street_name.bind (dictGet m) with
      | some code => borocode_to_borough code
      | none => ("Unknown")

/-- `integrate_street_names`: rows whose borough is Unknown get
`find_borough` of a street-normalized COPY written into the borough field
(index-aligned `loc` assignment); all other rows, and every non-borough
field of every row, pass through untouched. -/
def integrate_street_names (data : List CollisionRow) (street_mapping : List (String × String)) :
    List CollisionRow :=
  let m := street_mapping_std street_mapping
  data.map (fun r =>
    if r.borough = ("Unknown") then { r with borough := find_borough m (normalizeStreets r) }
    else r)

/-- The composite lookup a street cell undergoes during resolution:
normalize the cell, then look it up in the standardized mapping. -/
def lookup_street (m : List (String × String)) (s : Option String) : Option String :=
  (s.map strNormalize).bind (dictGet (street_mapping_std m))

/-- One raw row of the population CSV, restricted to the two columns the
pipeline reads: the cell under `borough` and the cell under
`_2010_population` (fields are meaningful only when `PopTable.columns`
contains those names). -/
structure PopRow where
  borough : Option String
  population : Option String
deriving DecidableEq

/-- The raw population DataFrame: its column names (before normalization)
and its rows. -/
structure PopTable where
  columns : List String
  rows : List PopRow
deriving DecidableEq

/-- Column-name normalization `data.columns.str.lower().str.strip()`. -/
def normColumns (t : PopTable) : List String :=
  t.columns.map (fun c => String.mk (trimChars (c.data.map Char.toLower)))

/-- Distinct keys in first-occurrence order (pandas `groupby` additionally
sorts group keys; no claim depends on row order, only on membership and
per-key values). -/
def dedupKeys : List String → List String
  | [] => []
  | k :: ks => k :: (dedupKeys ks).filter (fun x => x ≠ k)

/-- `groupby(borough).sum()` over (borough, population) pairs: rows whose
borough is missing (NaN) are dropped by groupby; each remaining distinct
borough gets the sum of its population values. -/
def groupSumPop (l : List (Option String × Int)) : List (String × Int) :=
  let keys := dedupKeys (l.filterMap (fun p => p.1))
  keys.map (fun k => (k, (l.filterMap (fun p => if p.1 = some k then some p.2 else none)).sum))

/-- The KeyError message raised when the population column is absent (the
source wraps the column name in single quotes, omitted here). -/
def popColumnError : String := ("_2010_population column is missing in the dataset.")

/-- The pandas KeyError raised by the `borough` column access when that
column is absent (its message is just the key). -/
def boroughColumnError : String := ("borough")

/-- `clean_population_data`: normalize column names; title-case the borough
column (a pandas KeyError on `borough` fires here when that column is
absent, BEFORE the population-column check); require `_2010_population`
(KeyError naming it otherwise); coerce population cells with
`to_numeric_int`; group by borough summing population; append an
(Unknown, 0) row when no Unknown borough came out of the grouping.
`popTitled` is the intermediate frame after the title-casing of the borough
column and the numeric coercion of the renamed population column. -/
def popTitled (t : PopTable) : List (Option String × Int) :=
  t.rows.map (fun r => (r.borough.map titleCase, to_numeric_int r.population))

/-- The body of `clean_population_data` proper: schema checks in source
order (borough access fails first), then group-by-borough summation of the
coerced population, then the appended (Unknown, 0) default row. -/
def clean_population_data (t : PopTable) : Except String (List (String × Int)) :=
  if ("borough") ∈ normColumns t then
    if ("_2010_population") ∈ normColumns t then
      if ("Unknown") ∈ (groupSumPop (popTitled t)).map (fun p => p.1) then
        Except.ok (groupSumPop (popTitled t))
      else Except.ok (groupSumPop (popTitled t) ++ [(("Unknown"), 0)])
    else Except.error popColumnError
  else Except.error boroughColumnError

/-- One group of the SQL aggregation
`SELECT borough, SUM(total_fatalities), SUM(total_injuries), COUNT(*)
FROM collisions GROUP BY borough`. -/
structure AggRow where
  borough : String
  total_fatalities : Int
  total_injuries : Int
  total_incidents : Int
deriving DecidableEq

/-- The collisions-side aggregation of `combine_databases`. -/
def aggregate_collisions (colls : List CollisionRow) : List AggRow :=
  let keys := dedupKeys (colls.map (fun r => r.borough))
  keys.map (fun b =>
    let grp := colls.filter (fun r => r.borough = b)
    { borough := b
      total_fatalities := (grp.map (fun r => r.total_fatalities)).sum
      total_injuries := (grp.map (fun r => r.total_injuries)).sum
      total_incidents := (grp.length : Int) })

/-- Round to 2 decimal places over ℚ (the float `.round(2)`; exact
half-cent ties, which never arise in the data consumed here, follow
round-half-up in the model). -/
def round2 (q : ℚ) : ℚ := ((Rat.floor (q * 100 + 1/2) : ℤ) : ℚ) / 100

/-- One float risk column after `fillna(0)` and `.round(2)`:
`some q` is a finite value, `none` a non-finite one (±∞, which `fillna`
does NOT replace).  Division of 0 by 0 gives NaN, which `fillna(0)` turns
into 0; a nonzero numerator over 0 gives ±∞ and stays non-finite. -/
def risk_percentage (num den : Int) : Option ℚ :=
  if den = 0 then
    if num = 0 then some 0 else none
  else some (round2 (((num : ℚ) / (den : ℚ)) * 100))

/-- One row of the combined `joined_data` table. -/
structure CombinedRow where
  borough : String
  total_population : Int
  total_fatalities : Int
  total_injuries : Int
  total_incidents : Int
  fatality_risk_percentage : Option ℚ
  injury_risk_percentage : Option ℚ
deriving DecidableEq

/-- Attach the two risk columns to a merged row. -/
def withRisk (b : String) (p f i n : Int) : CombinedRow :=
  { borough := b
    total_population := p
    total_fatalities := f
    total_injuries := i
    total_incidents := n
    fatality_risk_percentage := risk_percentage f n
    injury_risk_percentage := risk_percentage i n }

/-- `combine_databases` on already-loaded tables: outer-merge the
population rows with the per-borough collision aggregates on borough
(borough keys are unique on both sides, coming from groupby / GROUP BY),
fill the missing side of unmatched keys with 0, then compute both risk
percentages. -/
def combine_databases (pop : List (String × Int)) (colls : List CollisionRow) :
    List CombinedRow :=
  let agg := aggregate_collisions colls
  let left := pop.map (fun bp =>
    match agg.find? (fun a => a.borough = bp.1) with
    | some a => withRisk bp.1 bp.2 a.total_fatalities a.total_injuries a.total_incidents
    | none => withRisk bp.1 bp.2 0 0 0)
  let right := (agg.filter (fun a => pop.all (fun bp => bp.1 ≠ a.borough))).map
    (fun a => withRisk a.borough 0 a.total_fatalities a.total_injuries a.total_incidents)
  left ++ right

/-- The six values a borough cell may legally hold after resolution
according to the specification. -/
def canonicalBoroughs : List String :=
  [("Manhattan"), ("Bronx"), ("Brooklyn"), ("Queens"), ("Staten Island"), ("Unknown")]

/-- Fixture row: a well-formed collision record with a parseable date. -/
def rowDupA : RawCollisionRow :=
  { borough := some ("Brooklyn")
    on_street_name := none
    off_street_name := none
    cross_street_name := none
    crash_date := some ("2021-01-01")
    crash_time := some ("12:30")
    killed := [some ("0")]
    injured := [some ("1")]
    vehicle_type_code1 := some ("Sedan")
    other := [] }

/-- Fixture row: identical to `rowDupA` except its crash date cell cannot
be parsed. -/
def rowBadDate : RawCollisionRow :=
  { rowDupA with crash_date := some ("not-a-date") }

/-- The 3-row fixture of the end-to-end scenario: one exact duplicate pair
and one row with an unparseable crash date. -/
def fixture3 : List RawCollisionRow := [rowDupA, rowDupA, rowBadDate]

/-- Fixture row whose only killed-column cell is the parseable negative
value -1. -/
def rowNegKilled : RawCollisionRow :=
  { rowDupA with killed := [some ("-1")] }

/-- A one-entry street reference as downloaded: key not yet normalized. -/
def mapEx : List (String × String) := [(("main st"), ("1")), (("SIDE AVE"), ("3"))]

/-- A collision row with Unknown borough whose on-street matches Manhattan
and whose off-street matches Brooklyn in `mapEx`. -/
def rowUnknownEx : CollisionRow :=
  { borough := ("Unknown")
    on_street_name := some ("  Main St ")
    off_street_name := some ("side ave")
    cross_street_name := none
    killed := []
    injured := []
    total_fatalities := 0
    total_injuries := 0
    vehicle_type := none }

/-- A collision row with Unknown borough and streets absent from `mapEx`. -/
def rowNoMatchEx : CollisionRow :=
  { rowUnknownEx with
    on_street_name := some ("nowhere rd")
    off_street_name := none
    cross_street_name := some ("missing blvd") }

/-- A collision row with a known borough, used for the frame witness. -/
def rowKnownEx : CollisionRow := { rowUnknownEx with borough := ("Queens") }

/-- A collision row whose source borough is an arbitrary non-NYC string. -/
def rowGotham : RawCollisionRow :=
  { rowDupA with borough := some ("GOTHAM") }

/-- A well-formed raw population table without any Unknown borough. -/
def popTableEx : PopTable :=
  { columns := [("Borough"), (" _2010_Population ")]
    rows := [{ borough := some ("brooklyn"), population := some ("100") }] }

/-- A raw population table that lacks the population column. -/
def popTableNoPop : PopTable := { columns := [("borough")], rows := [] }

/-- A two-borough population table for the combined-view witness. -/
def popEx : List (String × Int) := [(("Queens"), 100), (("Bronx"), 50)]

/-- A one-row collisions table (Queens only), so Bronx appears in the
combined view with zero incidents. -/
def collEx : List CollisionRow :=
  [{ borough := ("Queens")
     on_street_name := none
     off_street_name := none
     cross_street_name := none
     killed := [1]
     injured := [2]
     total_fatalities := 1
     total_injuries := 2
     vehicle_type := none }]

theorem sanity_check1 : titleCase ("BROOKLYN") = ("Brooklyn") := by decide

theorem sanity_check2 : titleCase ("staten island") = ("Staten Island") := by decide

theorem sanity_check3 : parseDate ("2021-01-01") = some (2021, 1, 1) := by decide

theorem sanity_check4 : parseDate ("not-a-date") = none := by decide

theorem sanity_check5 : to_numeric_int (some ("-3")) = -3 := by decide

theorem sanity_check6 : to_numeric_int (some ("2.5")) = 2 := by decide

theorem sanity_check7 : to_numeric_int (some ("abc")) = 0 := by decide

theorem sanity_check8 : to_numeric_int none = 0 := by decide

theorem sanity_check9 : strNormalize ("  bedford ave ") = ("BEDFORD AVE") := by decide

theorem mem_of_mem_dedupFirst {seen l} {x : RawCollisionRow}
    (h : x ∈ dedupFirst seen l) : x ∈ l := by
  induction l generalizing seen with
  | nil => rw [dedupFirst] at h; exact absurd h (List.not_mem_nil x)
  | cons y ys ih =>
    rw [dedupFirst] at h
    by_cases hy : y ∈ seen
    · rw [if_pos hy] at h
      exact List.mem_cons_of_mem y (ih h)
    · rw [if_neg hy] at h
      rcases List.mem_cons.mp h with h1 | h2
      · exact h1 ▸ List.mem_cons_self x ys
      · exact List.mem_cons_of_mem y (ih h2)

theorem mem_of_mem_drop_duplicates {l} {x : RawCollisionRow}
    (h : x ∈ drop_duplicates l) : x ∈ l :=
  mem_of_mem_dedupFirst h

theorem mem_clean_collisions {rows : List RawCollisionRow} {r : CollisionRow} :
    r ∈ clean_collisions_data rows ↔
      ∃ raw, raw ∈ drop_duplicates rows ∧ crashDateOk raw = true ∧ r = cleanRowOf raw := by
  unfold clean_collisions_data
  constructor
  · intro h
    obtain ⟨raw, hraw, hEq⟩ := List.mem_map.mp h
    obtain ⟨hmem, hdate⟩ := List.mem_filter.mp hraw
    exact ⟨raw, hmem, hdate, hEq.symm⟩
  · rintro ⟨raw, hmem, hdate, hEq⟩
    exact List.mem_map.mpr ⟨raw, List.mem_filter.mpr ⟨hmem, hdate⟩, hEq.symm⟩

/-- C7: during collisions normalization a (deduplicated) row is kept in the
output exactly when its crash date parses; parseability of the crash time
never appears in the condition, so a row with a parseable date and an
unparseable time is kept.  The cleaned table is built only from rows whose
date parsed (the raw date column itself is subsequently dropped, so no null
crash date can occur downstream). -/
theorem clean_keeps_exactly_parseable_dates (rows : List RawCollisionRow) (r : CollisionRow) :
    r ∈ clean_collisions_data rows ↔
      ∃ raw, raw ∈ drop_duplicates rows ∧ crashDateOk raw = true ∧ r = cleanRowOf raw :=
  mem_clean_collisions

/-- C3 counterexample: on the 3-row fixture (exact duplicate pair with a
parseable date, third row with an unparseable date) normalization yields 1
row — deduplication removes one of the pair AND the date filter removes the
bad-date row — not the 2 rows the claim states. -/
theorem fixture3_yields_one_row_not_two :
    fixture3 = [rowDupA, rowDupA, rowBadDate] ∧
    crashDateOk rowDupA = true ∧
    crashDateOk rowBadDate = false ∧
    rowDupA ≠ rowBadDate ∧
    (clean_collisions_data fixture3).length = 1 ∧
    (clean_collisions_data fixture3).length ≠ 2 := by
  refine ⟨rfl, by decide, by decide, by decide, by decide, by decide⟩

/-- C3 amended: a 3-row collisions input consisting of an exact duplicate
pair with a parseable crash date plus one row with an unparseable crash
date yields exactly ONE output row after normalization (the claim said
two): deduplication drops one of the pair and the date filter drops the
unparseable row. -/
theorem three_row_fixture_yields_one_row (a c : RawCollisionRow)
    (ha : crashDateOk a = true) (hc : crashDateOk c = false) :
    (clean_collisions_data [a, a, c]).length = 1 := by
  have hac : ¬ (c = a) := by
    intro h
    rw [h, ha] at hc
    exact Bool.noConfusion hc
  simp [clean_collisions_data, drop_duplicates, dedupFirst, hac, List.filter, ha, hc]

/-- C3 amended witness at the concrete fixture. -/
theorem three_row_fixture_witness : (clean_collisions_data fixture3).length = 1 :=
  three_row_fixture_yields_one_row rowDupA rowBadDate (by decide) (by decide)

/-- C4 amended: for every row of the cleaned collisions table,
`total_fatalities` and `total_injuries` equal the exact sums of the
coerced killed / injured cells of the originating raw row (unparseable or
missing cells counting as 0), and each total is nonnegative PROVIDED every
coerced cell is nonnegative — the code never clamps, so a negative source
value makes the total negative (see the counterexample). -/
theorem totals_are_coerced_sums (rows : List RawCollisionRow) (r : CollisionRow)
    (hr : r ∈ clean_collisions_data rows) :
    ∃ raw, raw ∈ rows ∧
      r.total_fatalities = (raw.killed.map to_numeric_int).sum ∧
      r.total_injuries = (raw.injured.map to_numeric_int).sum ∧
      ((∀ v ∈ raw.killed, 0 ≤ to_numeric_int v) → 0 ≤ r.total_fatalities) ∧
      ((∀ v ∈ raw.injured, 0 ≤ to_numeric_int v) → 0 ≤ r.total_injuries) := by
  obtain ⟨raw, hmem, _, hEq⟩ := mem_clean_collisions.mp hr
  refine ⟨raw, mem_of_mem_drop_duplicates hmem, ?_, ?_, ?_, ?_⟩
  · rw [hEq]; rfl
  · rw [hEq]; rfl
  · intro hpos
    rw [hEq]
    exact List.sum_nonneg (by
      intro x hx
      obtain ⟨v, hv, hvx⟩ := List.mem_map.mp hx
      exact hvx ▸ hpos v hv)
  · intro hpos
    rw [hEq]
    exact List.sum_nonneg (by
      intro x hx
      obtain ⟨v, hv, hvx⟩ := List.mem_map.mp hx
      exact hvx ▸ hpos v hv)

/-- C4 counterexample: a parseable negative source cell flows straight into
the total, so a normalized row can have `total_fatalities` < 0 — the
nonnegativity half of the claim fails (coercion never clamps). -/
theorem negative_cell_gives_negative_total :
    (clean_collisions_data [rowNegKilled]).map (fun r => r.total_fatalities) = [-1] ∧
    ¬ (0 : Int) ≤ -1 := by
  refine ⟨by decide, by decide⟩

/-- C4 amended witness: instantiating the amended theorem at a concrete
one-row table. -/
theorem totals_witness :
    ∃ raw, raw ∈ [rowDupA] ∧
      (cleanRowOf rowDupA).total_fatalities = (raw.killed.map to_numeric_int).sum ∧
      (cleanRowOf rowDupA).total_injuries = (raw.injured.map to_numeric_int).sum ∧
      ((∀ v ∈ raw.killed, 0 ≤ to_numeric_int v) → 0 ≤ (cleanRowOf rowDupA).total_fatalities) ∧
      ((∀ v ∈ raw.injured, 0 ≤ to_numeric_int v) → 0 ≤ (cleanRowOf rowDupA).total_injuries) :=
  totals_are_coerced_sums [rowDupA] (cleanRowOf rowDupA) (by decide)

/-- C7 witness: the characterization applied at the concrete fixture. -/
theorem clean_keeps_witness :
    cleanRowOf rowDupA ∈ clean_collisions_data fixture3 :=
  (clean_keeps_exactly_parseable_dates fixture3 (cleanRowOf rowDupA)).mpr
    ⟨rowDupA, by decide, by decide, rfl⟩

theorem find_borough_of_on (m : List (String × String)) (r : CollisionRow) (c : String)
    (h : lookup_street m r.on_street_name = some c) :
    find_borough (street_mapping_std m) (normalizeStreets r) = borocode_to_borough c := by
  unfold lookup_street at h
  unfold find_borough normalizeStreets
  simp only []
  rw [h]

theorem find_borough_all_none (m : List (String × String)) (r : CollisionRow)
    (h1 : lookup_street m r.on_street_name = none)
    (h2 : lookup_street m r.off_street_name = none)
    (h3 : lookup_street m r.cross_street_name = none) :
    find_borough (street_mapping_std m) (normalizeStreets r) = ("Unknown") := by
  unfold lookup_street at h1 h2 h3
  unfold find_borough normalizeStreets
  simp only []
  rw [h1, h2, h3]

/-- C1: borough resolution consults the street columns in the fixed order
on, off, cross, and the first street present in the (identically
normalized) reference mapping decides the outcome: when the on-street is in
the mapping with code `cA`, the row resolves to the borough of `cA` even
though the off-street is in the mapping too (with code `cB`). -/
theorem resolution_priority_on_over_off
    (rows : List CollisionRow) (m : List (String × String)) (r : CollisionRow) (cA cB : String)
    (hr : r ∈ rows) (hU : r.borough = ("Unknown"))
    (hOn : lookup_street m r.on_street_name = some cA)
    (hOff : lookup_street m r.off_street_name = some cB) :
    find_borough (street_mapping_std m) (normalizeStreets r) = borocode_to_borough cA ∧
    { r with borough := borocode_to_borough cA } ∈ integrate_street_names rows m := by
  have hfind := find_borough_of_on m r cA hOn
  refine ⟨hfind, ?_⟩
  unfold integrate_street_names
  refine List.mem_map.mpr ⟨r, hr, ?_⟩
  rw [if_pos hU, hfind]

/-- C1 witness: the concrete row resolves to Manhattan (code of its
on-street), not Brooklyn (code of its off-street). -/
theorem resolution_priority_witness :
    find_borough (street_mapping_std mapEx) (normalizeStreets rowUnknownEx)
        = borocode_to_borough ("1") ∧
    { rowUnknownEx with borough := borocode_to_borough ("1") }
        ∈ integrate_street_names [rowUnknownEx] mapEx :=
  resolution_priority_on_over_off [rowUnknownEx] mapEx rowUnknownEx ("1") ("3")
    (List.mem_singleton.mpr rfl) rfl (by decide) (by decide)

/-- C8: a row whose borough is Unknown and none of whose three normalized
street names occurs in the reference mapping passes through borough
resolution unchanged: it is still present in the output with borough
Unknown.  `integrate_street_names` and `find_borough` are total functions —
the unresolved case is an ordinary return value (`Unknown`), not an
error. -/
theorem unresolved_row_stays_unknown
    (rows : List CollisionRow) (m : List (String × String)) (r : CollisionRow)
    (hr : r ∈ rows) (hU : r.borough = ("Unknown"))
    (h1 : lookup_street m r.on_street_name = none)
    (h2 : lookup_street m r.off_street_name = none)
    (h3 : lookup_street m r.cross_street_name = none) :
    r ∈ integrate_street_names rows m ∧ r.borough = ("Unknown") := by
  refine ⟨?_, hU⟩
  unfold integrate_street_names
  refine List.mem_map.mpr ⟨r, hr, ?_⟩
  rw [if_pos hU, find_borough_all_none m r h1 h2 h3, ← hU]

/-- C8 witness at a concrete unmatched row. -/
theorem unresolved_row_witness :
    rowNoMatchEx ∈ integrate_street_names [rowNoMatchEx] mapEx ∧
    rowNoMatchEx.borough = ("Unknown") :=
  unresolved_row_stays_unknown [rowNoMatchEx] mapEx rowNoMatchEx
    (List.mem_singleton.mpr rfl) rfl (by decide) (by decide) (by decide)

/-- C10: borough resolution is a pure per-row map that can change at most
the borough field — the output equals the input mapped through a function
that rewrites only `borough` — and that function returns the original
borough whenever it is not Unknown, so every non-Unknown row is returned
unchanged and every other field of every row is preserved (street names are
normalized only on an internal copy). -/
theorem integrate_changes_only_unknown_borough
    (rows : List CollisionRow) (m : List (String × String)) :
    ∃ f : CollisionRow → String,
      integrate_street_names rows m = rows.map (fun r => { r with borough := f r }) ∧
      ∀ r : CollisionRow, r.borough ≠ ("Unknown") → f r = r.borough := by
  refine ⟨fun r =>
    if r.borough = ("Unknown")
    then find_borough (street_mapping_std m) (normalizeStreets r)
    else r.borough, ?_, ?_⟩
  · unfold integrate_street_names
    refine List.map_congr_left ?_
    intro r _
    by_cases hU : r.borough = ("Unknown")
    · simp only [if_pos hU]
    · simp only [if_neg hU]
  · intro r hU
    simp only [if_neg hU]

/-- C10 witness: on a table whose single row has a known borough, borough
resolution is the identity. -/
theorem integrate_frame_witness :
    integrate_street_names [rowKnownEx] mapEx = [rowKnownEx] := by
  obtain ⟨f, hEq, hFrame⟩ := integrate_changes_only_unknown_borough [rowKnownEx] mapEx
  have hf := hFrame rowKnownEx (by decide)
  rw [hEq, List.map_singleton, hf]

theorem borocode_to_borough_mem_canon (c : String) :
    borocode_to_borough c ∈ canonicalBoroughs := by
  unfold borocode_to_borough canonicalBoroughs
  split_ifs <;> simp

theorem find_borough_mem_canon (m : List (String × String)) (r : CollisionRow) :
    find_borough m r ∈ canonicalBoroughs := by
  unfold find_borough
  cases hOn : r.on_street_name.bind (dictGet m) with
  | some c => simp only [hOn]; exact borocode_to_borough_mem_canon c
  | none =>
    cases hOff : r.off_street_name.bind (dictGet m) with
    | some c => simp only [hOn, hOff]; exact borocode_to_borough_mem_canon c
    | none =>
      cases hCross : r.cross_street_name.bind (dictGet m) with
      | some c => simp only [hOn, hOff, hCross]; exact borocode_to_borough_mem_canon c
      | none => simp only [hOn, hOff, hCross]; decide

/-- C2 amended: PROVIDED every non-missing source borough cell title-cases
to one of the five canonical borough names or Unknown, every borough value
in the collisions table after cleaning and borough resolution lies in
{Manhattan, Bronx, Brooklyn, Queens, Staten Island, Unknown}.  Without the
proviso the claim fails: cleaning only title-cases source boroughs and
resolution touches only Unknown rows, so an arbitrary source string passes
through (see the counterexample). -/
theorem boroughs_canonical_after_resolution
    (rows : List RawCollisionRow) (m : List (String × String))
    (hsrc : ∀ raw ∈ rows, ∀ b : String, raw.borough = some b → titleCase b ∈ canonicalBoroughs) :
    ∀ r ∈ integrate_street_names (clean_collisions_data rows) m, r.borough ∈ canonicalBoroughs := by
  intro r hr
  unfold integrate_street_names at hr
  obtain ⟨s, hs, hmap⟩ := List.mem_map.mp hr
  obtain ⟨raw, hraw, _, hsEq⟩ := mem_clean_collisions.mp hs
  by_cases hU : s.borough = ("Unknown")
  · rw [← hmap, if_pos hU]
    exact find_borough_mem_canon _ _
  · rw [← hmap, if_neg hU]
    cases hb : raw.borough with
    | none =>
      exfalso
      apply hU
      rw [hsEq]
      unfold cleanRowOf
      rw [hb]
      rfl
    | some b =>
      have hmem := hsrc raw (mem_of_mem_drop_duplicates hraw) b hb
      have : s.borough = titleCase b := by
        rw [hsEq]
        unfold cleanRowOf
        rw [hb]
        rfl
      rw [this]
      exact hmem

/-- C2 counterexample: an arbitrary source borough string survives cleaning
(title-cased) and borough resolution untouched, so the collisions table can
hold a borough outside the canonical six — the claim fails without a
proviso on the source data. -/
theorem noncanonical_borough_survives :
    (integrate_street_names (clean_collisions_data [rowGotham]) []).map (fun r => r.borough)
      = [("Gotham")] ∧
    ("Gotham") ∉ canonicalBoroughs := by
  refine ⟨by decide, by decide⟩

/-- C2 amended witness at a concrete well-formed table and row. -/
theorem boroughs_canonical_witness :
    (cleanRowOf rowDupA).borough ∈ canonicalBoroughs :=
  boroughs_canonical_after_resolution [rowDupA] mapEx (by decide)
    (cleanRowOf rowDupA) (by decide)

theorem mem_of_mem_dedupKeys {l : List String} {x : String} (h : x ∈ dedupKeys l) : x ∈ l := by
  induction l with
  | nil => exact absurd h (List.not_mem_nil x)
  | cons k ks ih =>
    rw [dedupKeys] at h
    rcases List.mem_cons.mp h with h1 | h2
    · exact h1 ▸ List.mem_cons_self k ks
    · exact List.mem_cons_of_mem k (ih (List.mem_of_mem_filter h2))

theorem groupSumPop_keys (l : List (Option String × Int)) :
    (groupSumPop l).map (fun p => p.1) = dedupKeys (l.filterMap (fun p => p.1)) := by
  unfold groupSumPop
  rw [List.map_map]
  exact List.map_id _

/-- C6: whenever population cleaning succeeds, the aggregated table
contains a row keyed Unknown; and when no source borough cell title-cases
to Unknown (in particular, when no Unknown borough occurs in the source),
that row is the appended default (Unknown, 0). -/
theorem population_has_unknown_row (t : PopTable) (l : List (String × Int))
    (hok : clean_population_data t = Except.ok l) :
    ("Unknown") ∈ l.map (fun p => p.1) ∧
    ((∀ r ∈ t.rows, ∀ b : String, r.borough = some b → titleCase b ≠ ("Unknown")) →
      (("Unknown"), 0) ∈ l) := by
  unfold clean_population_data at hok
  by_cases hb : ("borough") ∈ normColumns t
  · rw [if_pos hb] at hok
    by_cases hp : ("_2010_population") ∈ normColumns t
    · rw [if_pos hp] at hok
      by_cases hu : ("Unknown") ∈ (groupSumPop (popTitled t)).map (fun p => p.1)
      · rw [if_pos hu] at hok
        have hl : l = groupSumPop (popTitled t) := (Except.ok.injEq _ _).mp hok.symm
        constructor
        · rw [hl]; exact hu
        · intro hnone
          exfalso
          rw [groupSumPop_keys] at hu
          have hmem := mem_of_mem_dedupKeys hu
          obtain ⟨p, hpmem, hp1⟩ := List.mem_filterMap.mp hmem
          obtain ⟨r, hr, hrEq⟩ := List.mem_map.mp (by simpa [popTitled] using hpmem)
          have hsome : r.borough.map titleCase = some ("Unknown") := by
            rw [← hrEq] at hp1
            exact hp1
          obtain ⟨b, hb2, hb3⟩ := Option.map_eq_some.mp hsome
          exact hnone r hr b hb2 hb3
      · rw [if_neg hu] at hok
        have hl : l = groupSumPop (popTitled t) ++ [(("Unknown"), 0)] :=
          (Except.ok.injEq _ _).mp hok.symm
        constructor
        · rw [hl, List.map_append]
          exact List.mem_append_right _ (by decide)
        · intro _
          rw [hl]
          exact List.mem_append_right _ (by decide)
    · rw [if_neg hp] at hok
      exact absurd hok (by simp)
  · rw [if_neg hb] at hok
    exact absurd hok (by simp)

/-- C6 witness at the concrete table: the default (Unknown, 0) row is
appended. -/
theorem population_unknown_witness :
    ("Unknown") ∈ [((("Brooklyn") : String), (100 : Int)), (("Unknown"), 0)].map (fun p => p.1) ∧
    ((("Unknown") : String), (0 : Int)) ∈ [((("Brooklyn") : String), (100 : Int)), (("Unknown"), 0)] := by
  have h := population_has_unknown_row popTableEx
    [((("Brooklyn") : String), (100 : Int)), (("Unknown"), 0)] (by rfl)
  exact ⟨h.1, h.2 (by decide)⟩

/-- C9 counterexample: a table whose only (already normalized) column is
the required population column.  The required column is present, yet
cleaning still fails — with the pandas KeyError for the absent borough
column, raised by the title-casing step BEFORE the population-column check;
so a fatal schema error is not raised only-if the population column is
absent, and this error does not name that column. -/
theorem population_error_without_borough :
    ("_2010_population") ∈ normColumns { columns := [("_2010_population")], rows := [] } ∧
    clean_population_data { columns := [("_2010_population")], rows := [] }
      = Except.error boroughColumnError ∧
    boroughColumnError ≠ popColumnError := by
  refine ⟨by decide, by rfl, by decide⟩

/-- C9 amended: PROVIDED the normalized column list contains borough (whose
absence makes the earlier title-casing step fail first), population
cleaning fails if and only if the normalized column list lacks
_2010_population, and the only error it can produce is the message naming
that missing column. -/
theorem population_schema_error_iff (t : PopTable)
    (hb : ("borough") ∈ normColumns t) :
    ((∃ e, clean_population_data t = Except.error e) ↔
      ("_2010_population") ∉ normColumns t) ∧
    (∀ e, clean_population_data t = Except.error e → e = popColumnError) := by
  unfold clean_population_data
  rw [if_pos hb]
  by_cases hp : ("_2010_population") ∈ normColumns t
  · rw [if_pos hp]
    constructor
    · constructor
      · rintro ⟨e, he⟩
        by_cases hu : ("Unknown") ∈ (groupSumPop (popTitled t)).map (fun p => p.1)
        · rw [if_pos hu] at he
          exact absurd he (by simp)
        · rw [if_neg hu] at he
          exact absurd he (by simp)
      · intro hnp
        exact absurd hp hnp
    · intro e he
      by_cases hu : ("Unknown") ∈ (groupSumPop (popTitled t)).map (fun p => p.1)
      · rw [if_pos hu] at he
        exact absurd he (by simp)
      · rw [if_neg hu] at he
        exact absurd he (by simp)
  · rw [if_neg hp]
    constructor
    · exact ⟨fun _ => hp, fun _ => ⟨popColumnError, rfl⟩⟩
    · intro e he
      exact (Except.error.injEq _ _).mp he.symm

/-- C9 amended witness: with borough present and the population column
absent, cleaning fails with the message naming the missing column. -/
theorem population_schema_error_witness :
    (∃ e, clean_population_data popTableNoPop = Except.error e) ∧
    (∀ e, clean_population_data popTableNoPop = Except.error e → e = popColumnError) := by
  have h := population_schema_error_iff popTableNoPop (by decide)
  exact ⟨h.1.mpr (by decide), h.2⟩

theorem mem_aggregate_pos (colls : List CollisionRow) (a : AggRow)
    (ha : a ∈ aggregate_collisions colls) : 0 < a.total_incidents := by
  unfold aggregate_collisions at ha
  obtain ⟨b, hb, hEq⟩ := List.mem_map.mp ha
  have hbmem : b ∈ colls.map (fun r => r.borough) := mem_of_mem_dedupKeys hb
  obtain ⟨r, hr, hrb⟩ := List.mem_map.mp hbmem
  have hfil : r ∈ colls.filter (fun r => r.borough = b) :=
    List.mem_filter.mpr ⟨hr, by simp [hrb]⟩
  have hlen : 0 < (colls.filter (fun r => r.borough = b)).length :=
    List.length_pos.mpr (List.ne_nil_of_mem hfil)
  rw [← hEq]
  show (0 : Int) < (((colls.filter (fun r => r.borough = b)).length : Nat) : Int)
  exact_mod_cast hlen

theorem combine_shape (pop : List (String × Int)) (colls : List CollisionRow)
    (row : CombinedRow) (hmem : row ∈ combine_databases pop colls) :
    ∃ b p f i n, row = withRisk b p f i n ∧ (0 < n ∨ (n = 0 ∧ f = 0 ∧ i = 0)) := by
  unfold combine_databases at hmem
  rcases List.mem_append.mp hmem with hL | hR
  · obtain ⟨bp, _, hEq⟩ := List.mem_map.mp hL
    cases hfind : (aggregate_collisions colls).find? (fun a => a.borough = bp.1) with
    | some a =>
      rw [hfind] at hEq
      refine ⟨bp.1, bp.2, a.total_fatalities, a.total_injuries, a.total_incidents, hEq.symm, ?_⟩
      exact Or.inl (mem_aggregate_pos colls a (List.mem_of_find?_eq_some hfind))
    | none =>
      rw [hfind] at hEq
      exact ⟨bp.1, bp.2, 0, 0, 0, hEq.symm, Or.inr ⟨rfl, rfl, rfl⟩⟩
  · obtain ⟨a, ha, hEq⟩ := List.mem_map.mp hR
    refine ⟨a.borough, 0, a.total_fatalities, a.total_injuries, a.total_incidents, hEq.symm, ?_⟩
    exact Or.inl (mem_aggregate_pos colls a (List.mem_of_mem_filter ha))

/-- C5: every row of the combined per-borough view has well-defined finite
risk percentages: when `total_incidents` = 0 both percentages are exactly 0
(the 0/0 NaN is replaced by `fillna(0)`; a non-finite ±∞ value, which
`fillna` would NOT replace, cannot occur because an unmatched borough gets
its fatality and injury totals filled with 0 as well), and when
`total_incidents` > 0 they equal (total / incidents) × 100 rounded to two
decimals. -/
theorem risk_percentages_defined (pop : List (String × Int)) (colls : List CollisionRow)
    (row : CombinedRow) (hmem : row ∈ combine_databases pop colls) :
    (row.total_incidents = 0 →
      row.fatality_risk_percentage = some 0 ∧ row.injury_risk_percentage = some 0) ∧
    (0 < row.total_incidents →
      row.fatality_risk_percentage
          = some (round2 (((row.total_fatalities : ℚ) / (row.total_incidents : ℚ)) * 100)) ∧
      row.injury_risk_percentage
          = some (round2 (((row.total_injuries : ℚ) / (row.total_incidents : ℚ)) * 100))) := by
  obtain ⟨b, p, f, i, n, hrow, hcase⟩ := combine_shape pop colls row hmem
  subst hrow
  rcases hcase with hpos | ⟨hn, hf, hi⟩
  · have hne : ¬ n = 0 := by omega
    constructor
    · intro h0
      exact absurd h0 hne
    · intro _
      constructor
      · show risk_percentage f n = some (round2 (((f : ℚ) / (n : ℚ)) * 100))
        rw [risk_percentage, if_neg hne]
      · show risk_percentage i n = some (round2 (((i : ℚ) / (n : ℚ)) * 100))
        rw [risk_percentage, if_neg hne]
  · subst hn hf hi
    constructor
    · intro _
      exact ⟨rfl, rfl⟩
    · intro h0
      have hlt : (0 : Int) < 0 := h0
      exact absurd hlt (lt_irrefl 0)

/-- C5 witness: the Bronx row of the concrete combined view has zero
incidents and both percentages exactly 0. -/
theorem risk_zero_witness :
    (withRisk ("Bronx") 50 0 0 0).total_incidents = 0 ∧
    (withRisk ("Bronx") 50 0 0 0).fatality_risk_percentage = some 0 ∧
    (withRisk ("Bronx") 50 0 0 0).injury_risk_percentage = some 0 := by
  have hmem : withRisk ("Bronx") 50 0 0 0 ∈ combine_databases popEx collEx :=
    List.mem_cons_of_mem _ (List.mem_cons_self _ _)
  have h := risk_percentages_defined popEx collEx (withRisk ("Bronx") 50 0 0 0) hmem
  have hz : (withRisk ("Bronx") 50 0 0 0).total_incidents = 0 := rfl
  exact ⟨hz, (h.1 hz).1, (h.1 hz).2⟩

